import Mathlib

/-!
Shallow embedding of `src/c_interface.rs` of the rcore_plus ucore binding layer.

Machine integers are modelled as `Nat` / `Int` with explicit reductions modulo
`2 ^ 32` and `2 ^ 64` wherever the Rust code performs an `as` cast or wrapping
arithmetic (the target is a 64-bit platform, so `usize` / `isize` are 64-bit and
`u32` / `i32` are 32-bit).  A panic (failed assertion, failed `unwrap`) is
modelled as `Except.error` carrying the observable state at the panic point;
`Except.ok` carries the returned value together with the state of the `&mut`
arguments on return.
-/

/-- Result codes crossing the ucore boundary (enum `ErrorCode` in
`c_interface.rs`, with `Ok = 0` and `Unimplemented = -1`). -/
inductive ErrorCode : Type where
  | Ok : ErrorCode
  | Unimplemented : ErrorCode
deriving DecidableEq

/-- Rust `as i32` applied to an unsigned integer: two's-complement
interpretation of the low 32 bits. -/
def toI32 (n : Nat) : Int :=
  if (n : Int) % 2 ^ 32 < 2 ^ 31 then (n : Int) % 2 ^ 32 else (n : Int) % 2 ^ 32 - 2 ^ 32

/-- Wrapping 32-bit signed addition result: reduce an integer into
`[-2 ^ 31, 2 ^ 31)` modulo `2 ^ 32` (release-mode `i32` `+=` semantics). -/
def wrapI32 (x : Int) : Int :=
  (x + 2 ^ 31) % 2 ^ 32 - 2 ^ 31

/-- Rust `as usize` applied to an `i32` on a 64-bit platform: sign-extend,
then reinterpret as an unsigned 64-bit value. -/
def i32ToUsize (x : Int) : Nat :=
  (x % 2 ^ 64).toNat

/-- Wrapping 64-bit (`usize`) subtraction. -/
def usizeSub (a b : Nat) : Nat :=
  (a % 2 ^ 64 + (2 ^ 64 - b % 2 ^ 64)) % 2 ^ 64

/-- Kernel buffer descriptor (struct `IoBuf` in `c_interface.rs`, matching
ucore's `struct iobuf`): base address of the buffer (`*mut u8`, an address
below `2 ^ 64`), current position `offset` (`i32`), buffer capacity `len`
(`u32`), and the residual count `resident` (`u32`) still to transfer. -/
structure IoBuf where
  base : Nat
  offset : Int
  len : Nat
  resident : Nat
deriving DecidableEq

/-- Representation invariant of a descriptor: every field holds a value of its
declared machine width (`base : usize`, `offset : i32`, `len resident : u32`). -/
def IoBuf.wf (b : IoBuf) : Prop :=
  b.base < 2 ^ 64 ∧ -2 ^ 31 ≤ b.offset ∧ b.offset < 2 ^ 31 ∧ b.len < 2 ^ 32 ∧ b.resident < 2 ^ 32

/-- `IoBuf::skip` from `c_interface.rs`:

    fn skip(&mut self, len: usize) \x7b
        assert!(len as u32 <= self.resident);
        self.base = unsafe\x7b self.base.offset(len as isize) \x7d;
        self.offset += len as i32;
        self.resident -= len as u32;
    \x7d

The assertion compares only the 32-bit truncation `n % 2 ^ 32` against
`resident`.  The base pointer is offset by the full (64-bit) `n` in address
arithmetic, `offset` is bumped by the `i32` reinterpretation of the truncation,
and `resident` is decremented by the truncation.  A failed assertion panics
before any field is written, so the `Except.error` payload is the unchanged
descriptor. -/
def IoBuf.skip (b : IoBuf) (n : Nat) : Except IoBuf IoBuf :=
  if n % 2 ^ 32 ≤ b.resident then
    Except.ok { base := (b.base + n) % 2 ^ 64, offset := wrapI32 (b.offset + toI32 n),
                len := b.len, resident := b.resident - n % 2 ^ 32 }
  else
    Except.error b

/-- The descriptor the Device adapter builds over a caller slice of length
`bufLen` located at address `base`, for a transfer at `off`
(`IoBuf \x7b base: buf.as_mut_ptr(), offset: offset as i32, len: buf.len() as u32,
resident: buf.len() as u32 \x7d` in `c_interface.rs`). -/
def mkIoBuf (base off bufLen : Nat) : IoBuf :=
  { base := base, offset := toI32 off, len := bufLen % 2 ^ 32, resident := bufLen % 2 ^ 32 }

/-- `<Device as sfs::Device>::read_at` from `c_interface.rs`.  The device's
`io` vtable slot is abstracted as a function from the descriptor and the
write-direction flag to the returned code and the descriptor state after the
call (the device's own state is threaded by the kernel and irrelevant to the
adapter's contract).  `assert_eq!(ret, ErrorCode::Ok)` panics on a non-`Ok`
code (`Except.error`); otherwise the adapter returns
`Some(buf.len() - io_buf.resident as usize)`. -/
def device_read_at (io : IoBuf → Bool → ErrorCode × IoBuf) (base off bufLen : Nat) :
    Except (ErrorCode × IoBuf) (Option Nat) :=
  match io (mkIoBuf base off bufLen) false with
  | (ErrorCode.Ok, b1) => Except.ok (some (usizeSub bufLen b1.resident))
  | (ErrorCode.Unimplemented, b1) => Except.error (ErrorCode.Unimplemented, b1)

/-- `<Device as sfs::Device>::write_at` from `c_interface.rs`: identical to
`device_read_at` except that the write-direction flag passed to `io` is set. -/
def device_write_at (io : IoBuf → Bool → ErrorCode × IoBuf) (base off bufLen : Nat) :
    Except (ErrorCode × IoBuf) (Option Nat) :=
  match io (mkIoBuf base off bufLen) true with
  | (ErrorCode.Ok, b1) => Except.ok (some (usizeSub bufLen b1.resident))
  | (ErrorCode.Unimplemented, b1) => Except.error (ErrorCode.Unimplemented, b1)

/-- The `read` trampoline of `INodeOps::from_rust_inode` in `c_interface.rs`:

    let len = inode.borrow().read_at(buf.offset as usize, buf.as_mut()).unwrap();
    buf.skip(len);
    ErrorCode::Ok

The underlying object's `read_at` (trait `vfs::INode`, outside this crate) is
abstracted as a function from the starting offset and the length of the view
passed to it (`buf.as_mut()` is a view of exactly `resident` bytes) to the
optional transferred byte count.  `unwrap` on `none` panics with the
descriptor untouched; a `skip` panic propagates with the descriptor untouched
(`skip` asserts before writing). -/
def inode_read (readAt : Nat → Nat → Option Nat) (b : IoBuf) :
    Except IoBuf (ErrorCode × IoBuf) :=
  match readAt (i32ToUsize b.offset) b.resident with
  | none => Except.error b
  | some k =>
    match b.skip k with
    | Except.error b1 => Except.error b1
    | Except.ok b1 => Except.ok (ErrorCode.Ok, b1)

/-- The `write` trampoline of `INodeOps::from_rust_inode` in `c_interface.rs`:
symmetric to `inode_read`, delegating to the object's `write_at` over
`buf.as_ref()`, again a view of exactly `resident` bytes. -/
def inode_write (writeAt : Nat → Nat → Option Nat) (b : IoBuf) :
    Except IoBuf (ErrorCode × IoBuf) :=
  match writeAt (i32ToUsize b.offset) b.resident with
  | none => Except.error b
  | some k =>
    match b.skip k with
    | Except.error b1 => Except.error b1
    | Except.ok b1 => Except.ok (ErrorCode.Ok, b1)

/-- Modelled from the spec: `vfs::FileInfo` is outside this crate; per the
spec it is an abstract file-info record with a 32-bit `mode` and `blocks` /
`size` fields of a numeric type wider than the kernel's 32-bit stat fields. -/
structure FileInfo where
  mode : Nat
  blocks : Nat
  size : Nat

/-- Kernel stat record (struct `Stat` in `c_interface.rs`, matching ucore's
`struct stat`): `mode`, `nlinks`, `blocks`, `size`, all `u32`. -/
structure Stat where
  mode : Nat
  nlinks : Nat
  blocks : Nat
  size : Nat
deriving DecidableEq

/-- `impl From<vfs::FileInfo> for Stat` in `c_interface.rs`: copies `mode`,
hard-codes `nlinks: 0`, and narrows `blocks` and `size` with `as u32`. -/
def Stat.fromFileInfo (info : FileInfo) : Stat :=
  { mode := info.mode, nlinks := 0, blocks := info.blocks % 2 ^ 32, size := info.size % 2 ^ 32 }

/-- The `open` stub of `INodeOps::from_rust_inode`: returns `Unimplemented`,
touching neither the inode handle (of abstract type `α`) nor anything else. -/
def op_open {α : Type} (inode : α) (flags : Nat) : ErrorCode × α :=
  (ErrorCode.Unimplemented, inode)

/-- The `close` stub of `INodeOps::from_rust_inode`. -/
def op_close {α : Type} (inode : α) : ErrorCode × α :=
  (ErrorCode.Unimplemented, inode)

/-- The `namefile` stub of `INodeOps::from_rust_inode`: the out buffer
descriptor is returned unchanged. -/
def op_namefile {α : Type} (inode : α) (buf : IoBuf) : ErrorCode × α × IoBuf :=
  (ErrorCode.Unimplemented, inode, buf)

/-- The `getdirentry` stub of `INodeOps::from_rust_inode`. -/
def op_getdirentry {α : Type} (inode : α) (buf : IoBuf) : ErrorCode × α × IoBuf :=
  (ErrorCode.Unimplemented, inode, buf)

/-- The `reclaim` stub of `INodeOps::from_rust_inode`. -/
def op_reclaim {α : Type} (inode : α) : ErrorCode × α :=
  (ErrorCode.Unimplemented, inode)

/-- The `tryseek` stub of `INodeOps::from_rust_inode` (`pos : i32`). -/
def op_tryseek {α : Type} (inode : α) (pos : Int) : ErrorCode × α :=
  (ErrorCode.Unimplemented, inode)

/-- The `truncate` stub of `INodeOps::from_rust_inode` (`len : i32`). -/
def op_truncate {α : Type} (inode : α) (len : Int) : ErrorCode × α :=
  (ErrorCode.Unimplemented, inode)

/-- The `create` stub of `INodeOps::from_rust_inode`: the inode store
out-parameter (of abstract type `β`) is returned unchanged. -/
def op_create {α β : Type} (inode : α) (name : Nat) (excl : Bool) (inodeStore : β) :
    ErrorCode × α × β :=
  (ErrorCode.Unimplemented, inode, inodeStore)

/-- The `lookup` stub of `INodeOps::from_rust_inode`. -/
def op_lookup {α β : Type} (inode : α) (path : Nat) (inodeStore : β) :
    ErrorCode × α × β :=
  (ErrorCode.Unimplemented, inode, inodeStore)

/-- The `ioctl` stub of `INodeOps::from_rust_inode` (`op : i32`, `data` a
mutable byte, returned unchanged). -/
def op_ioctl {α : Type} (inode : α) (op : Int) (data : Nat) : ErrorCode × α × Nat :=
  (ErrorCode.Unimplemented, inode, data)

/-- `sfs_do_mount` from `c_interface.rs`:

    let fs = unsafe\x7b __alloc_fs(SFS_TYPE) \x7d;
    let device = unsafe\x7b Box::from_raw(dev) \x7d;
    unsafe\x7b &mut (*fs) \x7d.fs = sfs::SimpleFileSystem::open(device).unwrap();
    *fs_store = fs;
    ErrorCode::Ok

Modelled from the spec where the collaborators are outside this crate:
`__alloc_fs` is the kernel's allocator, abstracted as the handle `allocFs` it
returns, and `sfs::SimpleFileSystem::open` is the filesystem implementation's
open routine, abstracted as a fallible function `sfsOpen` whose failure is
unconditionally unwrapped (panic, `Except.error`).  On success the returned
triple carries the error code, the handle stored into `*fs_store`, and the
filesystem instance stored into the handle's `fs` field. -/
def sfs_do_mount {Dev FsT : Type} (sfsOpen : Dev → Option FsT) (allocFs : Nat) (dev : Dev) :
    Except Unit (ErrorCode × Nat × FsT) :=
  match sfsOpen dev with
  | none => Except.error ()
  | some f => Except.ok (ErrorCode.Ok, allocFs, f)

-- Helper lemmas

theorem usizeSub_eq {a b : Nat} (hb : b ≤ a) (ha : a < 2 ^ 64) : usizeSub a b = a - b := by
  unfold usizeSub
  omega

theorem skip_ok_iff {b : IoBuf} {n : Nat} {b1 : IoBuf} :
    IoBuf.skip b n = Except.ok b1 ↔
      n % 2 ^ 32 ≤ b.resident ∧
        b1 = { base := (b.base + n) % 2 ^ 64, offset := wrapI32 (b.offset + toI32 n),
               len := b.len, resident := b.resident - n % 2 ^ 32 } := by
  unfold IoBuf.skip
  split_ifs with h
  · constructor
    · intro he
      injection he with he
      exact ⟨h, he.symm⟩
    · rintro ⟨-, rfl⟩
      rfl
  · constructor
    · intro he
      cases he
    · rintro ⟨h1, -⟩
      exact absurd h1 h

theorem skip_err_of_gt {b : IoBuf} {n : Nat} (h : b.resident < n % 2 ^ 32) :
    IoBuf.skip b n = Except.error b := by
  unfold IoBuf.skip
  rw [if_neg (by omega)]

theorem wrapI32_offset_add {x : Int} {n : Nat} (hn : n < 2 ^ 32) (h1 : -2 ^ 31 ≤ x)
    (h2 : x + n < 2 ^ 31) : wrapI32 (x + toI32 n) = x + n := by
  unfold wrapI32 toI32
  split_ifs with h <;> omega

-- Claim C2

/-- Claim C2, counterexample: the claim "skip(n) with n ≤ resident leaves
offset_after = offset_before + n" fails at the concrete descriptor
`⟨base 0, offset 0, len 2^31, resident 2^31⟩` with `n = 2^31`: the assertion
passes (`n ≤ resident`) but `offset += n as i32` adds the two's-complement
reinterpretation `-2^31`, so the offset field ends at `-2^31`, not `2^31`. -/
theorem c2_counterexample :
    2 ^ 31 ≤ (IoBuf.mk 0 0 (2 ^ 31) (2 ^ 31)).resident ∧
      IoBuf.skip (IoBuf.mk 0 0 (2 ^ 31) (2 ^ 31)) (2 ^ 31) =
        Except.ok (IoBuf.mk (2 ^ 31) (-2 ^ 31) (2 ^ 31) 0) ∧
      (-2 ^ 31 : Int) ≠ (IoBuf.mk 0 0 (2 ^ 31) (2 ^ 31)).offset + (2 ^ 31 : Nat) := by
  refine ⟨by decide, by rfl, by decide⟩

/-- Claim C2, amended: for every well-formed descriptor and every `n ≤ resident`
such that the new offset still fits the signed 32-bit offset field
(`offset + n < 2^31`) and the base address does not wrap
(`base + n < 2^64`), `skip n` succeeds and leaves `offset_after =
offset_before + n`, `resident_after = resident_before - n`, the base advanced
by exactly `n`, and `len` (the only other field) unchanged. -/
theorem c2_skip_advance (b : IoBuf) (n : Nat) (hwf : b.wf) (hn : n ≤ b.resident)
    (hoff : b.offset + n < 2 ^ 31) (hbase : b.base + n < 2 ^ 64) :
    b.skip n = Except.ok
      { base := b.base + n, offset := b.offset + n, len := b.len, resident := b.resident - n } := by
  obtain ⟨hb, ho1, ho2, hl, hr⟩ := hwf
  have hn32 : n < 2 ^ 32 := lt_of_le_of_lt hn hr
  have hmod : n % 2 ^ 32 = n := Nat.mod_eq_of_lt hn32
  rw [skip_ok_iff.mpr ⟨by omega, ?_⟩]
  rw [hmod, Nat.mod_eq_of_lt hbase, wrapI32_offset_add hn32 ho1 hoff]

/-- Claim C2, witness for the amended theorem at the descriptor
`⟨7, 3, 10, 8⟩` with `n = 5`. -/
theorem c2_witness :
    IoBuf.skip (IoBuf.mk 7 3 10 8) 5 = Except.ok (IoBuf.mk 12 8 10 3) :=
  c2_skip_advance (IoBuf.mk 7 3 10 8) 5
    ⟨by decide, by decide, by decide, by decide, by decide⟩
    (by decide) (by decide) (by decide)

-- Claim C3

/-- Claim C3, counterexample: the claim "skip(n) with n > resident fails via a
fatal assertion before mutating any field" fails at the zero descriptor with
`n = 2^32`: `n > resident = 0`, yet `n as u32 = 0` so the assertion passes,
and the call returns normally with the base pointer advanced by `2^32`. -/
theorem c3_counterexample :
    (IoBuf.mk 0 0 0 0).resident < 2 ^ 32 ∧
      IoBuf.skip (IoBuf.mk 0 0 0 0) (2 ^ 32) = Except.ok (IoBuf.mk (2 ^ 32) 0 0 0) ∧
      (IoBuf.mk (2 ^ 32) 0 0 0).base ≠ (IoBuf.mk 0 0 0 0).base := by
  refine ⟨by decide, by rfl, by decide⟩

/-- Claim C3, amended: whenever the 32-bit truncation of `n` exceeds
`resident` — in particular for every `n > resident` with `n < 2^32`, the range
on which the assertion actually compares the full argument — `skip n` fails
via the fatal assertion before mutating any field, so the descriptor at the
panic point is exactly the input (no partial update). -/
theorem c3_skip_assert (b : IoBuf) (n : Nat) (h : b.resident < n % 2 ^ 32) :
    b.skip n = Except.error b :=
  skip_err_of_gt h

/-- Claim C3, witness for the amended theorem: `skip 1` on the zero descriptor
panics with the descriptor unchanged. -/
theorem c3_witness :
    IoBuf.skip (IoBuf.mk 0 0 0 0) 1 = Except.error (IoBuf.mk 0 0 0 0) :=
  c3_skip_assert (IoBuf.mk 0 0 0 0) 1 (by decide)

-- Claim C10

/-- Claim C10: `skip` takes `n : usize` but its assertion compares only
`n as u32 = n % 2^32` against `resident`; hence on a 64-bit platform, for
every well-formed descriptor and every machine-word `n ≥ 2^32` with
`n % 2^32 ≤ resident`, the precondition `n ≤ resident` is violated
(`resident < n`) yet the assertion passes: `skip` returns normally,
the base pointer advances by the full `n` (in 64-bit address arithmetic),
while `offset` and `resident` are updated by only the 32-bit truncation
of `n`. -/
theorem c10_skip_truncation (b : IoBuf) (n : Nat) (hwf : b.wf) (h32 : 2 ^ 32 ≤ n)
    (h64 : n < 2 ^ 64) (hpass : n % 2 ^ 32 ≤ b.resident) :
    b.resident < n ∧
      ∃ b1, b.skip n = Except.ok b1 ∧ b1.base = (b.base + n) % 2 ^ 64 ∧
        b1.offset = wrapI32 (b.offset + toI32 n) ∧
        b1.resident + n % 2 ^ 32 = b.resident ∧ b1.len = b.len := by
  obtain ⟨hb, ho1, ho2, hl, hr⟩ := hwf
  refine ⟨by omega,
    { base := (b.base + n) % 2 ^ 64, offset := wrapI32 (b.offset + toI32 n),
      len := b.len, resident := b.resident - n % 2 ^ 32 },
    skip_ok_iff.mpr ⟨hpass, rfl⟩, rfl, rfl, by dsimp only; omega, rfl⟩

/-- Claim C10, witness at the descriptor `⟨0, 0, 5, 5⟩` with `n = 2^32 + 3`:
the assertion passes although `n` vastly exceeds `resident = 5`; the base
advances by the full `2^32 + 3` while `resident` drops by only `3`. -/
theorem c10_witness :
    (IoBuf.mk 0 0 5 5).resident < 2 ^ 32 + 3 ∧
      ∃ b1, IoBuf.skip (IoBuf.mk 0 0 5 5) (2 ^ 32 + 3) = Except.ok b1 ∧
        b1.base = (0 + (2 ^ 32 + 3)) % 2 ^ 64 ∧
        b1.offset = wrapI32 (0 + toI32 (2 ^ 32 + 3)) ∧
        b1.resident + (2 ^ 32 + 3) % 2 ^ 32 = 5 ∧ b1.len = 5 :=
  c10_skip_truncation (IoBuf.mk 0 0 5 5) (2 ^ 32 + 3)
    ⟨by decide, by decide, by decide, by decide, by decide⟩
    (by decide) (by decide) (by decide)

-- Claim C9

/-- Claim C9: the invariant `resident ≤ len` is established by every descriptor
this layer constructs — the Device adapter initialises `resident = len`
(both to the 32-bit image of the caller slice's length, which equals it
whenever the slice length fits `u32`) — and is preserved by `skip`, the only
operation of this layer that mutates a descriptor: any successful `skip`
decreases `resident` and leaves `len` unchanged. -/
theorem c9_resident_le_len :
    (∀ base off bufLen, (mkIoBuf base off bufLen).resident = (mkIoBuf base off bufLen).len) ∧
      (∀ b n b1, b.resident ≤ b.len → IoBuf.skip b n = Except.ok b1 →
        b1.resident ≤ b1.len ∧ b1.len = b.len ∧ b1.resident ≤ b.resident) := by
  refine ⟨fun base off bufLen => rfl, fun b n b1 hle hok => ?_⟩
  obtain ⟨-, rfl⟩ := skip_ok_iff.mp hok
  dsimp only
  exact ⟨by omega, rfl, by omega⟩

/-- Claim C9, witness: the adapter-built descriptor over an 8-byte slice
satisfies the invariant, and `skip 3` on `⟨0, 0, 8, 8⟩` preserves it. -/
theorem c9_witness :
    (mkIoBuf 0 2 8).resident = (mkIoBuf 0 2 8).len ∧
      ((IoBuf.mk 3 3 8 5).resident ≤ (IoBuf.mk 3 3 8 5).len ∧
        (IoBuf.mk 3 3 8 5).len = (IoBuf.mk 0 0 8 8).len ∧
        (IoBuf.mk 3 3 8 5).resident ≤ (IoBuf.mk 0 0 8 8).resident) :=
  ⟨c9_resident_le_len.1 0 2 8,
    c9_resident_le_len.2 (IoBuf.mk 0 0 8 8) 3 (IoBuf.mk 3 3 8 5) (by decide) (by rfl)⟩

-- Claim C1

/-- Claim C1: for the `read` and `write` operation-table slots, for every
well-formed descriptor with `resident = R` and every underlying object whose
`read_at` / `write_at` reports transferring at most the length of the view it
is handed (the `vfs::INode` contract, per the spec), if the call succeeds then
the trampoline invoked the object at the descriptor's offset over a view of
exactly `R` bytes, the slot returned `Ok`, and the descriptor's resident count
decreased by exactly the reported byte count, never going negative
(`resident_after + k = R` with `k ≤ R`). -/
theorem c1_read_write_resident (readAt writeAt : Nat → Nat → Option Nat) (b : IoBuf)
    (hwf : b.wf)
    (hr : ∀ off l k, readAt off l = some k → k ≤ l)
    (hw : ∀ off l k, writeAt off l = some k → k ≤ l) :
    (∀ e b1, inode_read readAt b = Except.ok (e, b1) →
      e = ErrorCode.Ok ∧ ∃ k, readAt (i32ToUsize b.offset) b.resident = some k ∧
        k ≤ b.resident ∧ b1.resident + k = b.resident) ∧
    (∀ e b1, inode_write writeAt b = Except.ok (e, b1) →
      e = ErrorCode.Ok ∧ ∃ k, writeAt (i32ToUsize b.offset) b.resident = some k ∧
        k ≤ b.resident ∧ b1.resident + k = b.resident) := by
  have hres : b.resident < 2 ^ 32 := hwf.2.2.2.2
  constructor
  · intro e b1 h
    unfold inode_read at h
    split at h
    · cases h
    · rename_i k hcall
      split at h
      · cases h
      · rename_i b2 hskip
        injection h with h2
        injection h2 with he hb
        subst he
        subst hb
        obtain ⟨hle, rfl⟩ := skip_ok_iff.mp hskip
        have hk : k ≤ b.resident := hr _ _ _ hcall
        refine ⟨rfl, k, hcall, hk, ?_⟩
        dsimp only
        omega
  · intro e b1 h
    unfold inode_write at h
    split at h
    · cases h
    · rename_i k hcall
      split at h
      · cases h
      · rename_i b2 hskip
        injection h with h2
        injection h2 with he hb
        subst he
        subst hb
        obtain ⟨hle, rfl⟩ := skip_ok_iff.mp hskip
        have hk : k ≤ b.resident := hw _ _ _ hcall
        refine ⟨rfl, k, hcall, hk, ?_⟩
        dsimp only
        omega

/-- Claim C1, witness at the descriptor `⟨0, 0, 4, 4⟩` with an object whose
`read_at` / `write_at` reports transferring 0 bytes. -/
theorem c1_witness :
    ErrorCode.Ok = ErrorCode.Ok ∧
      ∃ k, (fun _ _ => some 0 : Nat → Nat → Option Nat)
          (i32ToUsize (IoBuf.mk 0 0 4 4).offset) (IoBuf.mk 0 0 4 4).resident = some k ∧
        k ≤ (IoBuf.mk 0 0 4 4).resident ∧
        (IoBuf.mk 0 0 4 4).resident + k = (IoBuf.mk 0 0 4 4).resident :=
  (c1_read_write_resident (fun _ _ => some 0) (fun _ _ => some 0) (IoBuf.mk 0 0 4 4)
    ⟨by decide, by decide, by decide, by decide, by decide⟩
    (fun off l k hk => by injection hk with hk; omega)
    (fun off l k hk => by injection hk with hk; omega)).1
    ErrorCode.Ok (IoBuf.mk 0 0 4 4) (by rfl)

-- Claim C4

/-- Claim C4, counterexample: the claim "if the underlying object's `read_at`
yields no byte count, the read slot signals `Unimplemented`" is false: at the
descriptor `⟨0, 0, 4, 4⟩` with an object whose `read_at` yields `none`, the
trampoline's `unwrap` panics (modelled `Except.error`, routed to the kernel's
abort), so no error code — in particular not `Unimplemented` — is ever
returned to the caller. -/
theorem c4_counterexample :
    inode_read (fun _ _ => none) (IoBuf.mk 0 0 4 4) = Except.error (IoBuf.mk 0 0 4 4) ∧
      (Except.error (IoBuf.mk 0 0 4 4) : Except IoBuf (ErrorCode × IoBuf)) ≠
        Except.ok (ErrorCode.Unimplemented, IoBuf.mk 0 0 4 4) :=
  ⟨rfl, fun h => Except.noConfusion h⟩

/-- Claim C4, amended: if the underlying object's `read_at` yields no byte
count, the read slot fails fatally — the `unwrap` panics, reaching the
kernel's abort via the panic bridge with the descriptor untouched — rather
than signalling any error code to the caller. -/
theorem c4_read_none_panics (readAt : Nat → Nat → Option Nat) (b : IoBuf)
    (h : readAt (i32ToUsize b.offset) b.resident = none) :
    inode_read readAt b = Except.error b := by
  unfold inode_read
  rw [h]

/-- Claim C4, witness for the amended theorem. -/
theorem c4_witness :
    inode_read (fun _ _ => none) (IoBuf.mk 1 2 4 3) = Except.error (IoBuf.mk 1 2 4 3) :=
  c4_read_none_panics (fun _ _ => none) (IoBuf.mk 1 2 4 3) rfl

-- Claim C5

/-- Claim C5: the Device adapter's `read_at` (resp. `write_at`) builds a
descriptor over the caller's slice with `resident = len` (both the slice
length whenever it fits `u32`) and the given offset, invokes the device's
`io` slot with the write-direction flag cleared (resp. set), treats a non-`Ok`
result from `io` as fatal (assertion panic, `Except.error`), and otherwise
always returns success carrying the byte count `len(buf) - resident_after`;
no distinct short-transfer condition exists. -/
theorem c5_device_adapter (io : IoBuf → Bool → ErrorCode × IoBuf) (base off bufLen : Nat)
    (hlen : bufLen < 2 ^ 64) :
    ((mkIoBuf base off bufLen).resident = (mkIoBuf base off bufLen).len ∧
      (bufLen < 2 ^ 32 → (mkIoBuf base off bufLen).len = bufLen) ∧
      (mkIoBuf base off bufLen).offset = toI32 off) ∧
    (∀ b1, io (mkIoBuf base off bufLen) false = (ErrorCode.Ok, b1) → b1.resident ≤ bufLen →
      device_read_at io base off bufLen = Except.ok (some (bufLen - b1.resident))) ∧
    (∀ b1, io (mkIoBuf base off bufLen) false = (ErrorCode.Unimplemented, b1) →
      device_read_at io base off bufLen = Except.error (ErrorCode.Unimplemented, b1)) ∧
    (∀ b1, io (mkIoBuf base off bufLen) true = (ErrorCode.Ok, b1) → b1.resident ≤ bufLen →
      device_write_at io base off bufLen = Except.ok (some (bufLen - b1.resident))) ∧
    (∀ b1, io (mkIoBuf base off bufLen) true = (ErrorCode.Unimplemented, b1) →
      device_write_at io base off bufLen = Except.error (ErrorCode.Unimplemented, b1)) := by
  refine ⟨⟨rfl, fun h => Nat.mod_eq_of_lt h, by simp [mkIoBuf]⟩, ?_, ?_, ?_, ?_⟩
  · intro b1 hio hres
    unfold device_read_at
    rw [hio]
    show Except.ok (some (usizeSub bufLen b1.resident)) =
      Except.ok (some (bufLen - b1.resident))
    rw [usizeSub_eq hres hlen]
  · intro b1 hio
    unfold device_read_at
    rw [hio]
  · intro b1 hio hres
    unfold device_write_at
    rw [hio]
    show Except.ok (some (usizeSub bufLen b1.resident)) =
      Except.ok (some (bufLen - b1.resident))
    rw [usizeSub_eq hres hlen]
  · intro b1 hio
    unfold device_write_at
    rw [hio]

/-- Claim C5, witness: a device whose `io` slot drains the whole descriptor
and returns `Ok` makes the adapter report the full 8-byte count. -/
theorem c5_witness :
    device_read_at (fun b _ => (ErrorCode.Ok, { b with resident := 0 })) 0 3 8 =
      Except.ok (some 8) :=
  (c5_device_adapter (fun b _ => (ErrorCode.Ok, { b with resident := 0 })) 0 3 8
      (by decide)).2.1
    { mkIoBuf 0 3 8 with resident := 0 } rfl (by decide)

-- Claim C6

/-- Claim C6: the Stat Converter produces `nlinks = 0` unconditionally, copies
`mode`, and its `blocks` / `size` equal the input's corresponding fields
whenever those fit the kernel's 32-bit fields. -/
theorem c6_stat_converter (info : FileInfo) :
    (Stat.fromFileInfo info).nlinks = 0 ∧
      (Stat.fromFileInfo info).mode = info.mode ∧
      (info.blocks < 2 ^ 32 → (Stat.fromFileInfo info).blocks = info.blocks) ∧
      (info.size < 2 ^ 32 → (Stat.fromFileInfo info).size = info.size) :=
  ⟨rfl, rfl, fun h => Nat.mod_eq_of_lt h, fun h => Nat.mod_eq_of_lt h⟩

/-- Claim C6, witness at the file-info record `⟨mode 5, blocks 7, size 9⟩`. -/
theorem c6_witness :
    (Stat.fromFileInfo (FileInfo.mk 5 7 9)).nlinks = 0 ∧
      (Stat.fromFileInfo (FileInfo.mk 5 7 9)).mode = 5 ∧
      (Stat.fromFileInfo (FileInfo.mk 5 7 9)).blocks = 7 ∧
      (Stat.fromFileInfo (FileInfo.mk 5 7 9)).size = 9 := by
  have h := c6_stat_converter (FileInfo.mk 5 7 9)
  exact ⟨h.1, h.2.1, h.2.2.1 (by decide), h.2.2.2 (by decide)⟩

-- Claim C7

/-- Claim C7: every unimplemented operation-table slot — `open`, `close`,
`namefile`, `getdirentry`, `reclaim`, `tryseek`, `truncate`, `create`,
`lookup`, `ioctl` — returns exactly `Unimplemented` for every input and
modifies no state: the inode handle (with the underlying object it wraps) and
every output argument (buffer descriptor, inode store, ioctl data byte) come
back unchanged. -/
theorem c7_unimplemented_stubs {α β : Type} (inode : α) (store : β) (flags : Nat)
    (buf : IoBuf) (pos tlen opn : Int) (name data path : Nat) (excl : Bool) :
    op_open inode flags = (ErrorCode.Unimplemented, inode) ∧
      op_close inode = (ErrorCode.Unimplemented, inode) ∧
      op_namefile inode buf = (ErrorCode.Unimplemented, inode, buf) ∧
      op_getdirentry inode buf = (ErrorCode.Unimplemented, inode, buf) ∧
      op_reclaim inode = (ErrorCode.Unimplemented, inode) ∧
      op_tryseek inode pos = (ErrorCode.Unimplemented, inode) ∧
      op_truncate inode tlen = (ErrorCode.Unimplemented, inode) ∧
      op_create inode name excl store = (ErrorCode.Unimplemented, inode, store) ∧
      op_lookup inode path store = (ErrorCode.Unimplemented, inode, store) ∧
      op_ioctl inode opn data = (ErrorCode.Unimplemented, inode, data) :=
  ⟨rfl, rfl, rfl, rfl, rfl, rfl, rfl, rfl, rfl, rfl⟩

-- Claim C8

/-- Claim C8: for every device, the mount entry point allocates a filesystem
handle through the kernel, hands the device to the filesystem implementation's
open routine, stores the resulting instance into the handle and the handle
into the out-parameter, and returns `Ok`; a failure of the open routine is
unconditionally unwrapped (fatal panic, `Except.error`), so no code other
than `Ok` is ever returned. -/
theorem c8_mount {Dev FsT : Type} (sfsOpen : Dev → Option FsT) (allocFs : Nat) (dev : Dev) :
    (∀ f, sfsOpen dev = some f →
      sfs_do_mount sfsOpen allocFs dev = Except.ok (ErrorCode.Ok, allocFs, f)) ∧
      (sfsOpen dev = none → sfs_do_mount sfsOpen allocFs dev = Except.error ()) ∧
      (∀ c h f, sfs_do_mount sfsOpen allocFs dev = Except.ok (c, h, f) →
        c = ErrorCode.Ok ∧ h = allocFs ∧ sfsOpen dev = some f) := by
  refine ⟨fun f hf => ?_, fun hn => ?_, fun c h f hok => ?_⟩
  · unfold sfs_do_mount
    rw [hf]
  · unfold sfs_do_mount
    rw [hn]
  · unfold sfs_do_mount at hok
    split at hok
    · cases hok
    · rename_i f0 hf0
      injection hok with h2
      injection h2 with he h3
      injection h3 with hh hf1
      subst he
      subst hh
      subst hf1
      exact ⟨rfl, rfl, hf0⟩

/-- Claim C8, witness: mounting a device whose open routine yields the
instance `42`, with kernel handle `7`, stores `42` under handle `7` and
returns `Ok`. -/
theorem c8_witness :
    sfs_do_mount (fun _ => some 42 : Unit → Option Nat) 7 () =
      Except.ok (ErrorCode.Ok, 7, 42) :=
  (c8_mount (fun _ => some 42 : Unit → Option Nat) 7 ()).1 42 rfl
